import Mathlib

/-!
Verification of the streaming transcription backend.

The development shallowly embeds the audio-buffering and transcript-merging
code of the backend (`src/backend/app/transcription/utils.py`, the three
backend adapters, and the WebSocket session controller in
`src/backend/app/main.py`) and proves or refutes the specified properties.

Audio samples are modelled as integers: the buffering logic only counts,
slices and concatenates samples, never inspecting their numeric value, so
the float32 sample type of the source is irrelevant to every property here.
-/

namespace TruthSeeker

abbrev Sample := Int

/-- State of `AudioBuffer` (`src/backend/app/transcription/utils.py`).
`samples_per_chunk` and `overlap_samples` are the derived fields computed by
`__init__`; `buffer` is the list of pending samples. -/
structure AudioBuffer where
  chunk_size_ms : Nat
  overlap_ms : Nat
  sample_rate : Nat
  samples_per_chunk : Nat
  overlap_samples : Nat
  buffer : List Sample
deriving Repr, DecidableEq

/-- `AudioBuffer.__init__`: clamps `overlap_ms` with
`min(overlap_ms, chunk_size_ms)` and derives
`samples_per_chunk = (chunk_size_ms / 1000) * sample_rate` and
`overlap_samples = (overlap_ms / 1000) * sample_rate` (integer results;
written here over `Nat` as `ms * rate / 1000`, which agrees with the
source's float computation on the configurations considered). -/
def AudioBuffer.init (chunk_size_ms overlap_ms sample_rate : Nat) : AudioBuffer :=
  { chunk_size_ms := chunk_size_ms
    overlap_ms := min overlap_ms chunk_size_ms
    sample_rate := sample_rate
    samples_per_chunk := chunk_size_ms * sample_rate / 1000
    overlap_samples := min overlap_ms chunk_size_ms * sample_rate / 1000
    buffer := [] }

/-- The `while len(self.buffer) >= self.samples_per_chunk` loop of
`AudioBuffer.add_samples`, made total with an explicit iteration budget
`fuel`. Each iteration emits `buffer[:samples_per_chunk]` and keeps
`buffer[samples_per_chunk - overlap_samples:]`, exactly as the source.
Running out of fuel returns the state reached so far; the lemmas below show
which configurations ever exhaust any finite budget. -/
def extractChunks (spc os : Nat) : Nat → List Sample → List (List Sample) × List Sample
  | 0, buf => ([], buf)
  | fuel + 1, buf =>
    if spc ≤ buf.length then
      ((buf.take spc) :: (extractChunks spc os fuel (buf.drop (spc - os))).1,
       (extractChunks spc os fuel (buf.drop (spc - os))).2)
    else ([], buf)

/-- `AudioBuffer.add_samples`: appends the new samples to the buffer and runs
the chunk-extraction loop. The budget `buf.length + 1` is sufficient
whenever the source loop terminates (see `extractChunks_complete`). -/
def AudioBuffer.add_samples (ab : AudioBuffer) (new_samples : List Sample) :
    AudioBuffer × List (List Sample) :=
  let buf := ab.buffer ++ new_samples
  let r := extractChunks ab.samples_per_chunk ab.overlap_samples (buf.length + 1) buf
  ({ ab with buffer := r.2 }, r.1)

/-- `AudioBuffer.get_remaining_samples`: returns the buffered samples and
clears the buffer (an empty buffer returns an empty array unchanged). -/
def AudioBuffer.get_remaining_samples (ab : AudioBuffer) : List Sample × AudioBuffer :=
  if ab.buffer = [] then ([], ab)
  else (ab.buffer, { ab with buffer := [] })

theorem extractChunks_of_lt (spc os fuel : Nat) (buf : List Sample)
    (h : buf.length < spc) : extractChunks spc os fuel buf = ([], buf) := by
  cases fuel with
  | zero => rfl
  | succ n => simp [extractChunks, Nat.not_le.mpr h]

theorem extractChunks_succ (spc os fuel : Nat) (buf : List Sample)
    (h : spc ≤ buf.length) :
    extractChunks spc os (fuel + 1) buf
      = ((buf.take spc) :: (extractChunks spc os fuel (buf.drop (spc - os))).1,
         (extractChunks spc os fuel (buf.drop (spc - os))).2) := by
  simp [extractChunks, h]

/-- Every chunk the extraction loop emits has exactly `spc` samples. -/
theorem extractChunks_chunk_length (spc os : Nat) :
    ∀ (fuel : Nat) (buf c : List Sample),
      c ∈ (extractChunks spc os fuel buf).1 → c.length = spc := by
  intro fuel
  induction fuel with
  | zero => intro buf c hc; simp [extractChunks] at hc
  | succ n ih =>
    intro buf c hc
    by_cases h : spc ≤ buf.length
    · rw [extractChunks_succ spc os n buf h] at hc
      rcases List.mem_cons.mp hc with h1 | h2
      · subst h1; simp [List.length_take]; omega
      · exact ih _ _ h2
    · rw [extractChunks_of_lt spc os (n + 1) buf (by omega)] at hc
      simp at hc

/-- When the configured overlap equals the chunk size, one loop iteration
keeps the buffer exactly as it was (`buffer[0:]`), so the loop guard is
invariant: no iteration budget ever drains the buffer below `spc`. -/
theorem extractChunks_overlap_eq_fix (spc : Nat) :
    ∀ (fuel : Nat) (buf : List Sample), spc ≤ buf.length →
      (extractChunks spc spc fuel buf).2 = buf := by
  intro fuel
  induction fuel with
  | zero => intro buf _; rfl
  | succ n ih =>
    intro buf h
    rw [extractChunks_succ spc spc n buf h]
    simpa [Nat.sub_self] using ih buf h

/-- When the overlap is strictly below the chunk size, a budget larger than
the buffer length runs the loop to completion: the guard fails at the end. -/
theorem extractChunks_complete (spc os : Nat) (hos : os < spc) :
    ∀ (fuel : Nat) (buf : List Sample), buf.length < fuel →
      (extractChunks spc os fuel buf).2.length < spc := by
  intro fuel
  induction fuel with
  | zero => intro buf h; omega
  | succ n ih =>
    intro buf h
    by_cases hg : spc ≤ buf.length
    · rw [extractChunks_succ spc os n buf hg]
      exact ih (buf.drop (spc - os)) (by simp [List.length_drop]; omega)
    · rw [extractChunks_of_lt spc os (n + 1) buf (by omega)]
      show buf.length < spc
      omega

theorem AudioBuffer.get_remaining_samples_fst (ab : AudioBuffer) :
    (ab.get_remaining_samples).1 = ab.buffer := by
  unfold AudioBuffer.get_remaining_samples
  by_cases h : ab.buffer = [] <;> simp [h]

theorem AudioBuffer.get_remaining_samples_snd (ab : AudioBuffer) :
    (ab.get_remaining_samples).2.buffer = [] := by
  unfold AudioBuffer.get_remaining_samples
  by_cases h : ab.buffer = [] <;> simp [h]

theorem AudioBuffer.add_samples_snd (ab : AudioBuffer) (ns : List Sample) :
    (ab.add_samples ns).2
      = (extractChunks ab.samples_per_chunk ab.overlap_samples
          ((ab.buffer ++ ns).length + 1) (ab.buffer ++ ns)).1 := rfl

/-- C1: the source clamps with `min(overlap_ms, chunk_size_ms)`, which allows
`overlap_ms = chunk_size_ms`; then `overlap_samples = samples_per_chunk` and
the extraction loop removes zero samples per iteration. At the concrete
configuration `chunk_size_ms = 1000, overlap_ms = 1000, sample_rate = 16000`
with 16000 buffered samples, after any number of loop iterations the buffer
still satisfies the loop guard `samples_per_chunk ≤ length`, so
`add_samples` never terminates — refuting the claim that the effective
overlap is clamped strictly below the chunk size and the buffer always
strictly shrinks. -/
theorem c1_overlap_clamp_nontermination :
    ∀ fuel : Nat,
      (AudioBuffer.init 1000 1000 16000).samples_per_chunk ≤
        ((extractChunks (AudioBuffer.init 1000 1000 16000).samples_per_chunk
            (AudioBuffer.init 1000 1000 16000).overlap_samples
            fuel (List.replicate 16000 (0 : Sample))).2).length := by
  intro fuel
  have hspc : (AudioBuffer.init 1000 1000 16000).samples_per_chunk = 16000 := by
    norm_num [AudioBuffer.init]
  have hos : (AudioBuffer.init 1000 1000 16000).overlap_samples = 16000 := by
    norm_num [AudioBuffer.init]
  rw [hspc, hos,
    extractChunks_overlap_eq_fix 16000 fuel (List.replicate 16000 (0 : Sample))
      (by rw [List.length_replicate]), List.length_replicate]

/-- C3: with the configuration `chunk_size_ms = 2000, overlap_ms = 200,
sample_rate = 16000` (so `samples_per_chunk = 32000`,
`overlap_samples = 3200`), one `add_samples` call with 35000 samples on an
empty buffer emits exactly one chunk — the first 32000 samples — and leaves
6200 samples buffered: the last 3200 samples of the emitted window followed
by the 3000 unconsumed samples. -/
theorem c3_single_call_scenario (l : List Sample) (h : l.length = 35000) :
    ((AudioBuffer.init 2000 200 16000).add_samples l).2 = [l.take 32000] ∧
    (l.take 32000).length = 32000 ∧
    ((AudioBuffer.init 2000 200 16000).add_samples l).1.buffer.length = 6200 ∧
    ((AudioBuffer.init 2000 200 16000).add_samples l).1.buffer
      = (l.take 32000).drop 28800 ++ l.drop 32000 := by
  have hx : extractChunks 32000 3200 (35000 + 1) l = ([l.take 32000], l.drop 28800) := by
    rw [extractChunks_succ 32000 3200 35000 l (by omega)]
    have h28 : 32000 - 3200 = 28800 := by norm_num
    rw [h28, extractChunks_of_lt 32000 3200 35000 (l.drop 28800)
      (by simp [List.length_drop]; omega)]
  have hadd : (AudioBuffer.init 2000 200 16000).add_samples l
      = ({ AudioBuffer.init 2000 200 16000 with buffer := l.drop 28800 },
         [l.take 32000]) := by
    unfold AudioBuffer.add_samples
    have hb : (AudioBuffer.init 2000 200 16000).buffer = [] := rfl
    have hs : (AudioBuffer.init 2000 200 16000).samples_per_chunk = 32000 := by
      norm_num [AudioBuffer.init]
    have ho : (AudioBuffer.init 2000 200 16000).overlap_samples = 3200 := by
      norm_num [AudioBuffer.init]
    simp only [hb, List.nil_append, hs, ho, h, hx]
  refine ⟨by rw [hadd], by simp [List.length_take]; omega, ?_, ?_⟩
  · rw [hadd]
    simp [List.length_drop, h]
  · rw [hadd]
    have hdt : (l.take 32000).drop 28800 = (l.drop 28800).take 3200 := by
      rw [List.drop_take]
    have hdd : l.drop 32000 = (l.drop 28800).drop 3200 := by
      rw [List.drop_drop]
    simp only []
    rw [hdt, hdd, List.take_append_drop]

/-- Witness instantiating `c3_single_call_scenario` at a concrete list of
35000 samples. -/
theorem c3_single_call_scenario_witness :
    ((AudioBuffer.init 2000 200 16000).add_samples
        (List.replicate 35000 (0 : Sample))).2
      = [(List.replicate 35000 (0 : Sample)).take 32000] ∧
    ((List.replicate 35000 (0 : Sample)).take 32000).length = 32000 ∧
    ((AudioBuffer.init 2000 200 16000).add_samples
        (List.replicate 35000 (0 : Sample))).1.buffer.length = 6200 ∧
    ((AudioBuffer.init 2000 200 16000).add_samples
        (List.replicate 35000 (0 : Sample))).1.buffer
      = ((List.replicate 35000 (0 : Sample)).take 32000).drop 28800
          ++ (List.replicate 35000 (0 : Sample)).drop 32000 :=
  c3_single_call_scenario (List.replicate 35000 (0 : Sample)) (by rw [List.length_replicate])

/-- C6: every chunk emitted by `add_samples` has exactly
`samples_per_chunk` samples, and the end-of-stream window returned by
`get_remaining_samples` is exactly the buffered remainder (so only it may be
shorter than a full chunk). -/
theorem c6_chunk_length_invariant (ab : AudioBuffer) (ns c : List Sample)
    (hc : c ∈ (ab.add_samples ns).2) :
    c.length = ab.samples_per_chunk ∧
    (ab.get_remaining_samples).1 = ab.buffer := by
  refine ⟨?_, ab.get_remaining_samples_fst⟩
  rw [AudioBuffer.add_samples_snd] at hc
  exact extractChunks_chunk_length ab.samples_per_chunk ab.overlap_samples _ _ c hc

/-- Witness instantiating `c6_chunk_length_invariant` on a buffer with a
2-sample chunk size fed 3 samples, which emits the chunk `[1, 2]`. -/
theorem c6_chunk_length_invariant_witness :
    ([1, 2] : List Sample).length = (AudioBuffer.init 1 0 2000).samples_per_chunk ∧
    ((AudioBuffer.init 1 0 2000).get_remaining_samples).1
      = (AudioBuffer.init 1 0 2000).buffer :=
  c6_chunk_length_invariant (AudioBuffer.init 1 0 2000) [1, 2, 3] [1, 2] (by decide)

/-- C10: `get_remaining_samples` returns exactly the buffered samples (same
length, never padded), leaves the buffer empty, and an immediately repeated
call returns an empty array. -/
theorem c10_get_remaining_clears (ab : AudioBuffer) :
    (ab.get_remaining_samples).1 = ab.buffer ∧
    (ab.get_remaining_samples).1.length = ab.buffer.length ∧
    (ab.get_remaining_samples).2.buffer = [] ∧
    ((ab.get_remaining_samples).2.get_remaining_samples).1 = [] := by
  refine ⟨ab.get_remaining_samples_fst, by rw [ab.get_remaining_samples_fst],
    ab.get_remaining_samples_snd, ?_⟩
  rw [AudioBuffer.get_remaining_samples_fst, AudioBuffer.get_remaining_samples_snd]

/-- Result record returned by every `transcribe_chunk`
(`StreamingTranscriptionResult` in `src/backend/app/transcription/common.py`). -/
structure StreamingTranscriptionResult where
  text : String
  is_final : Bool
deriving Repr, DecidableEq

/-- Per-session adapter state of the whisper adapters (`BaseTranscriber`):
the cumulative merged text and the previous chunk's raw text used as the
priming prompt. -/
structure TranscriberState where
  current_text : String
  last_chunk_text : String
deriving Repr, DecidableEq

/-- Python `str.strip()`: removes leading and trailing whitespace. Written
structurally over the character list so that it evaluates by kernel
reduction. -/
def pyStrip (s : String) : String :=
  ⟨((s.data.dropWhile Char.isWhitespace).reverse.dropWhile Char.isWhitespace).reverse⟩

/-- Outcome of the backend model call inside `transcribe_chunk`: either the
recognised text or a raised exception. -/
inductive BackendOutcome where
  | ok (text : String)
  | raised
deriving Repr, DecidableEq

/-- `LocalWhisperTranscriber.transcribe_chunk`
(`src/backend/app/transcription/local_whisper.py`): on success stores the
trimmed chunk text as the next priming prompt and, when the trimmed text is
non-empty, appends it to `current_text` with a single separating space (or
makes it the cumulative text when that was empty); on an exception returns
the unchanged last known-good `current_text` with `is_final` forced true. -/
def LocalWhisperTranscriber.transcribe_chunk (st : TranscriberState)
    (backend : BackendOutcome) (is_final : Bool) :
    TranscriberState × StreamingTranscriptionResult :=
  match backend with
  | .ok text =>
    let newCurrent :=
      if pyStrip text ≠ "" then
        if st.current_text ≠ "" then st.current_text ++ " " ++ pyStrip text
        else pyStrip text
      else st.current_text
    ({ current_text := newCurrent, last_chunk_text := pyStrip text },
     { text := newCurrent, is_final := is_final })
  | .raised => (st, { text := st.current_text, is_final := true })

/-- Outcome of the backend call inside the OpenAI adapter, which can also
fail before the API call when the temporary WAV file cannot be prepared. -/
inductive OpenAIBackendOutcome where
  | prepFailed
  | ok (text : String)
  | raised
deriving Repr, DecidableEq

/-- `OpenAIWhisperTranscriber.transcribe_chunk`
(`src/backend/app/transcription/openai_whisper.py`): same merge as the local
adapter; a failed audio preparation returns the current text with the given
finality, an exception returns it with `is_final` forced true. -/
def OpenAIWhisperTranscriber.transcribe_chunk (st : TranscriberState)
    (backend : OpenAIBackendOutcome) (is_final : Bool) :
    TranscriberState × StreamingTranscriptionResult :=
  match backend with
  | .prepFailed => (st, { text := st.current_text, is_final := is_final })
  | .ok text =>
    let newCurrent :=
      if pyStrip text ≠ "" then
        if st.current_text ≠ "" then st.current_text ++ " " ++ pyStrip text
        else pyStrip text
      else st.current_text
    ({ current_text := newCurrent, last_chunk_text := pyStrip text },
     { text := newCurrent, is_final := is_final })
  | .raised => (st, { text := st.current_text, is_final := true })

/-- State of `GoogleSpeechTranscriber`
(`src/backend/app/transcription/google_speech.py`) relevant to chunk
handling: the streaming flag, the pending audio queue, and the two result
fields written by the worker thread. -/
structure GoogleState where
  is_streaming : Bool
  audio_queue : List (List Sample)
  final_result : String
  interim_result : String
deriving Repr, DecidableEq

/-- `GoogleSpeechTranscriber.stop_stream`: when streaming, clears the flag,
enqueues the `None` sentinel, joins the worker with a bounded timeout and
drains the queue — modelled sequentially as clearing the flag and leaving
the queue empty; a no-op when not streaming. -/
def GoogleSpeechTranscriber.stop_stream (st : GoogleState) : GoogleState :=
  if st.is_streaming then { st with is_streaming := false, audio_queue := [] }
  else st

/-- Body of the response loop in
`GoogleSpeechTranscriber._streaming_thread_func`: a remote-final transcript
is appended (trimmed, single space) to `final_result` and the interim slot
is cleared; an interim transcript overwrites the interim slot. -/
def GoogleSpeechTranscriber.handleResponse (st : GoogleState)
    (transcript : String) (resultFinal : Bool) : GoogleState :=
  if resultFinal then
    { st with
      final_result :=
        if st.final_result ≠ "" then st.final_result ++ " " ++ pyStrip transcript
        else pyStrip transcript
      interim_result := "" }
  else { st with interim_result := pyStrip transcript }

/-- `GoogleSpeechTranscriber.transcribe_chunk`: an exception returns
`final_result` with `is_final` forced true; when not streaming, returns
`final_result` with the given finality; otherwise a non-final non-empty
chunk is enqueued, a final call stops the stream and returns the
accumulated `final_result`, and a non-final call returns `final_result`
extended with the pending interim result when one exists. -/
def GoogleSpeechTranscriber.transcribe_chunk (st : GoogleState)
    (chunk : List Sample) (is_final : Bool) (raised : Bool) :
    GoogleState × StreamingTranscriptionResult :=
  if raised then (st, { text := st.final_result, is_final := true })
  else if st.is_streaming then
    let st1 :=
      if 0 < chunk.length ∧ is_final = false then
        { st with audio_queue := st.audio_queue ++ [chunk] }
      else st
    if is_final then
      let st2 := GoogleSpeechTranscriber.stop_stream st1
      (st2, { text := st2.final_result, is_final := true })
    else
      let current :=
        if st1.interim_result ≠ "" then
          if st1.final_result ≠ "" then st1.final_result ++ " " ++ st1.interim_result
          else st1.interim_result
        else st1.final_result
      (st1, { text := current, is_final := false })
  else (st, { text := st.final_result, is_final := is_final })

/-- Message sent over the WebSocket by the session controller in
`src/backend/app/main.py`: the transcript text and the finality flag. -/
structure WsMessage where
  text : String
  is_final : Bool
deriving Repr, DecidableEq

/-- The `isLastChunk` branch of `websocket_endpoint` in
`src/backend/app/main.py` (buffered mode): drains the buffer with
`get_remaining_samples`; if samples remain they are dispatched to the
adapter with `is_final=True`, otherwise an explicit empty final chunk is
dispatched; in both cases exactly one message with `is_final: True` is sent.
Returns the drained buffer, the adapter state, the samples dispatched to
the adapter, and the list of messages sent. -/
def handleLastChunk (ab : AudioBuffer) (st : TranscriberState)
    (backend : BackendOutcome) :
    AudioBuffer × TranscriberState × List Sample × List WsMessage :=
  let rem := ab.get_remaining_samples
  if 0 < rem.1.length then
    let r := LocalWhisperTranscriber.transcribe_chunk st backend true
    (rem.2, r.1, rem.1, [{ text := r.2.text, is_final := true }])
  else
    let r := LocalWhisperTranscriber.transcribe_chunk st backend true
    (rem.2, r.1, [], [{ text := r.2.text, is_final := true }])

/-- First merge of the repeated-text scenario: the local adapter merges
`"hello"` into an empty session. -/
def c2_run1 : TranscriberState × StreamingTranscriptionResult :=
  LocalWhisperTranscriber.transcribe_chunk
    { current_text := "", last_chunk_text := "" } (.ok "hello") false

/-- Second merge of the repeated-text scenario: the same text `"hello"` is
merged again into the state left by `c2_run1`. -/
def c2_run2 : TranscriberState × StreamingTranscriptionResult :=
  LocalWhisperTranscriber.transcribe_chunk c2_run1.1 (.ok "hello") false

/-- C2: the merge is not idempotent. The source comment says new text is
only appended when it is not already part of `current_text`, but the code
appends unconditionally whenever the trimmed text is non-empty: merging
`"hello"` twice yields `"hello hello"`, not `"hello"`. -/
theorem c2_merge_not_idempotent :
    c2_run1.2.text = "hello" ∧ c2_run2.2.text = "hello hello" ∧
    c2_run2.2.text ≠ c2_run1.2.text := by
  refine ⟨by decide, by decide, by decide⟩

/-- C4: in every adapter an exception inside `transcribe_chunk` is caught
and turned into a result carrying the unchanged last known-good cumulative
text with `is_final = true`, regardless of the `is_final` argument, and the
adapter state is left unchanged. -/
theorem c4_error_path_all_adapters (st : TranscriberState) (gst : GoogleState)
    (chunk : List Sample) (i : Bool) :
    LocalWhisperTranscriber.transcribe_chunk st .raised i
      = (st, { text := st.current_text, is_final := true }) ∧
    OpenAIWhisperTranscriber.transcribe_chunk st .raised i
      = (st, { text := st.current_text, is_final := true }) ∧
    GoogleSpeechTranscriber.transcribe_chunk gst chunk i true
      = (gst, { text := gst.final_result, is_final := true }) := by
  refine ⟨rfl, rfl, ?_⟩
  simp [GoogleSpeechTranscriber.transcribe_chunk]

/-- C5: on the end-of-stream signal the session controller sends exactly one
terminal message, with `is_final = true` and the adapter's result text, and
the samples dispatched to the adapter are exactly the buffered remainder
(the empty chunk when nothing was buffered). -/
theorem c5_exactly_one_terminal (ab : AudioBuffer) (st : TranscriberState)
    (b : BackendOutcome) :
    (handleLastChunk ab st b).2.2.2
      = [{ text := (LocalWhisperTranscriber.transcribe_chunk st b true).2.text,
           is_final := true }] ∧
    (handleLastChunk ab st b).2.2.1 = ab.buffer := by
  unfold handleLastChunk
  by_cases h : 0 < (ab.get_remaining_samples).1.length
  · rw [if_pos h]
    exact ⟨rfl, ab.get_remaining_samples_fst⟩
  · rw [if_neg h]
    refine ⟨rfl, ?_⟩
    have h0 := ab.get_remaining_samples_fst
    rw [h0] at h
    exact (List.length_eq_zero.mp (by omega)).symm

/-- First step of the transcript-regression scenario: the Google worker
records the interim hypothesis `"hello world"` and a non-final
`transcribe_chunk` reports it. -/
def c7_run1 : GoogleState × StreamingTranscriptionResult :=
  GoogleSpeechTranscriber.transcribe_chunk
    (GoogleSpeechTranscriber.handleResponse
      { is_streaming := true, audio_queue := [], final_result := "",
        interim_result := "" } "hello world" false)
    [1] false false

/-- Second step of the transcript-regression scenario: the remote revises
the interim hypothesis down to `"hi"` and the next non-final
`transcribe_chunk` reports the shorter text. -/
def c7_run2 : GoogleState × StreamingTranscriptionResult :=
  GoogleSpeechTranscriber.transcribe_chunk
    (GoogleSpeechTranscriber.handleResponse c7_run1.1 "hi" false)
    [1] false false

/-- C7 counterexample: two consecutive non-error `transcribe_chunk` calls of
the Google adapter whose returned cumulative text shrinks from
`"hello world"` to `"hi"`, refuting non-decreasing length and
prefix-extension across non-error calls. -/
theorem c7_google_interim_regression :
    c7_run1.2.text = "hello world" ∧ c7_run2.2.text = "hi" ∧
    c7_run2.2.text.length < c7_run1.2.text.length := by
  refine ⟨by decide, by decide, by decide⟩

/-- C7 amended: for the whisper adapters every non-error `transcribe_chunk`
returns a cumulative text extending the previous one (so its length is
non-decreasing) and stores exactly that text as the new session state, so
consecutive non-error results chain monotonically; for the Google adapter
only the accumulated `final_result` grows monotonically under worker
responses — the interim-bearing non-final text may regress. -/
theorem c7_monotone_growth (st : TranscriberState) (t : String) (i : Bool)
    (gst : GoogleState) (tr : String) (fin : Bool) :
    (∃ u, (LocalWhisperTranscriber.transcribe_chunk st (.ok t) i).2.text
        = st.current_text ++ u) ∧
    st.current_text.length
      ≤ (LocalWhisperTranscriber.transcribe_chunk st (.ok t) i).2.text.length ∧
    (LocalWhisperTranscriber.transcribe_chunk st (.ok t) i).1.current_text
      = (LocalWhisperTranscriber.transcribe_chunk st (.ok t) i).2.text ∧
    (∃ u, (OpenAIWhisperTranscriber.transcribe_chunk st (.ok t) i).2.text
        = st.current_text ++ u) ∧
    (∃ v, (GoogleSpeechTranscriber.handleResponse gst tr fin).final_result
        = gst.final_result ++ v) := by
  have hlocal : ∃ u, (LocalWhisperTranscriber.transcribe_chunk st (.ok t) i).2.text
      = st.current_text ++ u := by
    simp only [LocalWhisperTranscriber.transcribe_chunk]
    by_cases ht : pyStrip t = ""
    · exact ⟨"", by simp [ht]⟩
    · by_cases hc : st.current_text = ""
      · exact ⟨pyStrip t, by simp [ht, hc]⟩
      · exact ⟨" " ++ pyStrip t, by simp [ht, hc, String.append_assoc]⟩
  refine ⟨hlocal, ?_, ?_, ?_, ?_⟩
  · obtain ⟨u, hu⟩ := hlocal
    rw [hu, String.length_append]
    omega
  · simp only [LocalWhisperTranscriber.transcribe_chunk]
  · simpa only [OpenAIWhisperTranscriber.transcribe_chunk,
      LocalWhisperTranscriber.transcribe_chunk] using hlocal
  · simp only [GoogleSpeechTranscriber.handleResponse]
    by_cases hf : fin
    · by_cases hg : gst.final_result = ""
      · exact ⟨pyStrip tr, by simp [hf, hg]⟩
      · exact ⟨" " ++ pyStrip tr, by simp [hf, hg, String.append_assoc]⟩
    · exact ⟨"", by simp [hf]⟩

/-- C8: the merge inside `transcribe_chunk` of both whisper adapters leaves
the cumulative text unchanged when the trimmed new text is empty, makes it
the cumulative text when that was empty, and otherwise appends it with
exactly one separating space. -/
theorem c8_merge_semantics (st : TranscriberState) (t : String) (i : Bool) :
    (LocalWhisperTranscriber.transcribe_chunk st (.ok t) i).2.text
      = (if pyStrip t = "" then st.current_text
         else if st.current_text = "" then pyStrip t
         else st.current_text ++ " " ++ pyStrip t) ∧
    (OpenAIWhisperTranscriber.transcribe_chunk st (.ok t) i).2.text
      = (if pyStrip t = "" then st.current_text
         else if st.current_text = "" then pyStrip t
         else st.current_text ++ " " ++ pyStrip t) := by
  constructor <;>
  · simp only [LocalWhisperTranscriber.transcribe_chunk,
      OpenAIWhisperTranscriber.transcribe_chunk]
    by_cases ht : pyStrip t = "" <;> by_cases hc : st.current_text = "" <;>
      simp [ht, hc]

/-- C9: calling the Google adapter's `transcribe_chunk` with
`is_final = true` while streaming stops the stream (flag cleared, queue
drained) and returns exactly the accumulated `final_result` — excluding any
pending interim result — with `is_final = true`. -/
theorem c9_final_stops_stream (st : GoogleState) (chunk : List Sample)
    (h : st.is_streaming = true) :
    GoogleSpeechTranscriber.transcribe_chunk st chunk true false
      = ({ st with is_streaming := false, audio_queue := [] },
         { text := st.final_result, is_final := true }) := by
  simp [GoogleSpeechTranscriber.transcribe_chunk,
    GoogleSpeechTranscriber.stop_stream, h]

/-- Witness instantiating `c9_final_stops_stream` on a streaming state with
five queued windows, accumulated final text and a pending interim result. -/
theorem c9_final_stops_stream_witness :
    GoogleSpeechTranscriber.transcribe_chunk
      { is_streaming := true, audio_queue := [[1], [2], [3], [4], [5]],
        final_result := "hello world", interim_result := "pending" } [] true false
      = ({ is_streaming := false, audio_queue := [],
           final_result := "hello world", interim_result := "pending" },
         { text := "hello world", is_final := true }) :=
  c9_final_stops_stream
    { is_streaming := true, audio_queue := [[1], [2], [3], [4], [5]],
      final_result := "hello world", interim_result := "pending" } [] rfl

end TruthSeeker
